import Mathlib

/-!
Shallow embedding of the monkey bytecode compiler / virtual machine
(packages `vm`, `compiler` and `object`) and proofs about the claims of
the specification.  Go pointer values are modelled by explicit `addr`
fields (allocation identity); Go runtime panics (index out of range,
nil dereference, negative `make` length) are modelled by a dedicated
`crash` outcome, distinct from the `error` values `Run` returns.
-/

namespace Monkey

/-- Object type tags of the `object` package.  The file `object.go` is not
part of the sources under inspection; the tag strings follow the spec's
value model (spec section 3) and are only compared for equality. -/
def INTEGER_OBJ : String := "INTEGER"

def BOOLEAN_OBJ : String := "BOOLEAN"

def NULL_OBJ : String := "NULL"

def STRING_OBJ : String := "STRING"

def ARRAY_OBJ : String := "ARRAY"

def HASH_OBJ : String := "HASH"

def COMPILED_FUNCTION_OBJ : String := "COMPILED_FUNCTION_OBJ"

/-- object.CompiledFunction: instructions, NumLocals, NumParameters.
`addr` models the Go allocation identity of the `*CompiledFunction` pointer. -/
structure CompiledFunction where
  addr : Nat
  instructions : List Nat
  numLocals : Nat
  numParameters : Nat
  deriving DecidableEq, Repr

/-- Runtime values (`object.Object`).  Every variant except `intObj` carries
an `addr` field standing for the Go pointer: Go interface equality on these
values is pointer identity, which structural equality of this type models
faithfully as long as distinct allocations receive distinct addresses.
`intObj` carries no address because the VM compares Integers by numeric
value before any identity comparison can be reached. -/
inductive Obj where
  | intObj (value : Int)
  | boolObj (addr : Nat) (value : Bool)
  | nullObj (addr : Nat)
  | strObj (addr : Nat) (value : String)
  | arrObj (addr : Nat)
  | hashObj (addr : Nat)
  | fnObj (fn : CompiledFunction)
  deriving DecidableEq, Repr

/-- Canonical True singleton (vm.go: `var True = &object.Boolean{Value: true}`). -/
def TrueObj : Obj := .boolObj 0 true

/-- Canonical False singleton. -/
def FalseObj : Obj := .boolObj 1 false

/-- Canonical Null singleton. -/
def NullObj : Obj := .nullObj 2

/-- Method `Type()` of `object.Object`. -/
def Obj.type : Obj → String
  | .intObj _ => INTEGER_OBJ
  | .boolObj _ _ => BOOLEAN_OBJ
  | .nullObj _ => NULL_OBJ
  | .strObj _ _ => STRING_OBJ
  | .arrObj _ => ARRAY_OBJ
  | .hashObj _ => HASH_OBJ
  | .fnObj _ => COMPILED_FUNCTION_OBJ

/-- Opcodes of the `code` package (`code.go` is not among the inspected
sources; the constructor list follows the spec's instruction table,
section 4.2). -/
inductive Opcode where
  | OpConstant
  | OpAdd
  | OpSub
  | OpMul
  | OpDiv
  | OpPop
  | OpTrue
  | OpFalse
  | OpNull
  | OpEqual
  | OpNotEqual
  | OpGreaterThan
  | OpBang
  | OpMinus
  | OpJump
  | OpJumpNotTruthy
  | OpSetGlobal
  | OpGetGlobal
  | OpSetLocal
  | OpGetLocal
  | OpArray
  | OpHash
  | OpIndex
  | OpIndexAssign
  | OpCall
  | OpReturn
  | OpReturnValue
  deriving DecidableEq, Repr

/-- Modelled from the spec: the numeric value of each opcode byte.  The
file `code.go` defining the numbering is not among the inspected sources;
numbers are assigned in the order of the spec's instruction table
(section 4.2).  They are used only to render the `%d` of error messages,
and no claim depends on the particular numbering. -/
def opcodeValue : Opcode → Nat
  | .OpConstant => 0
  | .OpAdd => 1
  | .OpSub => 2
  | .OpMul => 3
  | .OpDiv => 4
  | .OpPop => 5
  | .OpTrue => 6
  | .OpFalse => 7
  | .OpNull => 8
  | .OpEqual => 9
  | .OpNotEqual => 10
  | .OpGreaterThan => 11
  | .OpBang => 12
  | .OpMinus => 13
  | .OpJump => 14
  | .OpJumpNotTruthy => 15
  | .OpSetGlobal => 16
  | .OpGetGlobal => 17
  | .OpSetLocal => 18
  | .OpGetLocal => 19
  | .OpArray => 20
  | .OpHash => 21
  | .OpIndex => 22
  | .OpIndexAssign => 23
  | .OpCall => 24
  | .OpReturn => 25
  | .OpReturnValue => 26

/-- Errors returned (as Go `error` values) by `Run` and its helpers. -/
inductive VMError where
  | stackOverflow
  | callingNonFunction
  | wrongNumberOfArguments (want got : Nat)
  | unknownStringOperator (op : Opcode)
  | unknownIntegerOperator (op : Opcode)
  | unknownOperatorCmpInt (op : Opcode)
  | unknownOperatorCmp (op : Opcode) (leftType rightType : String)
  | unsupportedTypesForBinaryOperation (leftType rightType : String)
  deriving DecidableEq, Repr

/-- Exact message string of each error, as produced by `fmt.Errorf` in
vm.go (including the source's misspelling `unkown` in the string-operator
message). -/
def renderError : VMError → String
  | .stackOverflow => "stack overflow"
  | .callingNonFunction => "calling non-function"
  | .wrongNumberOfArguments want got =>
      "wrong number of arguments: want=" ++ Nat.repr want ++ " got=" ++ Nat.repr got
  | .unknownStringOperator op =>
      "unkown string operator: " ++ Nat.repr (opcodeValue op)
  | .unknownIntegerOperator op =>
      "unknown integer operator: " ++ Nat.repr (opcodeValue op)
  | .unknownOperatorCmpInt op =>
      "unknown operator: " ++ Nat.repr (opcodeValue op)
  | .unknownOperatorCmp op leftType rightType =>
      "unknown operator: " ++ Nat.repr (opcodeValue op) ++
        " (" ++ leftType ++ " " ++ rightType ++ ")"
  | .unsupportedTypesForBinaryOperation leftType rightType =>
      "unsupported types for binary operation: " ++ leftType ++ " " ++ rightType

/-- vm.Frame: the executing function, the instruction pointer (initially −1)
and the base pointer.  `basePointer` is a Nat: the VM only ever stores
`sp − numArgs` there after checking that the callee slot `sp − 1 − numArgs`
is in range, so the value is never negative in any reachable state. -/
structure Frame where
  fn : CompiledFunction
  ip : Int
  basePointer : Nat
  deriving DecidableEq, Repr

/-- frame.NewFrame. -/
def NewFrame (fn : CompiledFunction) (basePointer : Nat) : Frame :=
  { fn := fn, ip := -1, basePointer := basePointer }

def StackSize : Nat := 2048

def MaxFrames : Nat := 1024

def GlobalsSize : Nat := 65536

/-- VM state (vm.go struct VM).  The stack, globals and frames arrays are
lists (in Go they have fixed lengths StackSize, GlobalsSize, MaxFrames);
`arrays` is the heap of Array objects, indexed by the `addr` of an
`Obj.arrObj` handle, making in-place mutation and aliasing observable;
`nextAddr` is the next fresh allocation address. -/
structure VMState where
  constants : List Obj
  stack : List Obj
  sp : Nat
  globals : List Obj
  frames : List Frame
  framesIndex : Nat
  arrays : List (List Obj)
  nextAddr : Nat
  deriving DecidableEq, Repr

/-- Outcome of one VM operation: a new state, an error returned from `Run`,
or a Go runtime panic (modelled as `crash`; a panic is not an `error`). -/
inductive Outcome where
  | ok (vm : VMState)
  | err (e : VMError)
  | crash
  deriving DecidableEq, Repr

/-- vm.push: fails with "stack overflow" when `sp ≥ StackSize`; the write
`stack[sp] = o` is a crash if `sp` exceeds the backing store (impossible in
Go where the backing store always has length StackSize). -/
def push (vm : VMState) (o : Obj) : Outcome :=
  if vm.sp ≥ StackSize then .err .stackOverflow
  else if vm.sp < vm.stack.length then
    .ok { vm with stack := vm.stack.set vm.sp o, sp := vm.sp + 1 }
  else .crash

/-- vm.pop: returns `stack[sp-1]` and decrements `sp`, with no underflow
check of its own — when `sp = 0` the Go code indexes `stack[-1]` and
panics, modelled by `none`. -/
def pop (vm : VMState) : Option (Obj × VMState) :=
  match vm.sp with
  | 0 => none
  | n + 1 =>
    match vm.stack.get? n with
    | some o => some (o, { vm with sp := n })
    | none => none

/-- vm.callFunction (vm.go lines 273–288): bump the caller's ip past the
operand, fetch the callee at `stack[sp − 1 − numArgs]`, check that it is a
CompiledFunction with the right arity, push a frame with
`basePointer = sp − numArgs` and set `sp = basePointer + NumLocals`. -/
def callFunction (vm : VMState) (numArgs : Nat) : Outcome :=
  if vm.framesIndex = 0 then .crash
  else
    match vm.frames.get? (vm.framesIndex - 1) with
    | none => .crash
    | some cf =>
      let vm1 : VMState :=
        { vm with frames := vm.frames.set (vm.framesIndex - 1) { cf with ip := cf.ip + 1 } }
      if vm1.sp < numArgs + 1 then .crash
      else
        match vm1.stack.get? (vm1.sp - 1 - numArgs) with
        | none => .crash
        | some callee =>
          match callee with
          | .fnObj fn =>
            if fn.numParameters ≠ numArgs then
              .err (.wrongNumberOfArguments fn.numParameters numArgs)
            else
              let frame := NewFrame fn (vm1.sp - numArgs)
              if vm1.framesIndex < vm1.frames.length then
                .ok { vm1 with
                        frames := vm1.frames.set vm1.framesIndex frame,
                        framesIndex := vm1.framesIndex + 1,
                        sp := frame.basePointer + fn.numLocals }
              else .crash
          | _ => .err .callingNonFunction

/-- Run's OpReturnValue case (vm.go lines 245–254): pop the return value,
pop the frame, set `sp = basePointer − 1`, push the return value.  When the
popped frame has `basePointer = 0` the Go code sets `sp = −1` and the
subsequent push indexes `stack[-1]`: a panic. -/
def opReturnValue (vm : VMState) : Outcome :=
  match pop vm with
  | none => .crash
  | some (returnValue, vm1) =>
    if vm1.framesIndex = 0 then .crash
    else
      match vm1.frames.get? (vm1.framesIndex - 1) with
      | none => .crash
      | some frame =>
        let vm2 : VMState := { vm1 with framesIndex := vm1.framesIndex - 1 }
        match frame.basePointer with
        | 0 => .crash
        | bp + 1 => push { vm2 with sp := bp } returnValue

/-- Run's OpReturn case (vm.go lines 236–243): pop the frame, set
`sp = basePointer − 1`, push the canonical Null. -/
def opReturn (vm : VMState) : Outcome :=
  if vm.framesIndex = 0 then .crash
  else
    match vm.frames.get? (vm.framesIndex - 1) with
    | none => .crash
    | some frame =>
      let vm2 : VMState := { vm with framesIndex := vm.framesIndex - 1 }
      match frame.basePointer with
      | 0 => .crash
      | bp + 1 => push { vm2 with sp := bp } NullObj

/-- vm.nativeBoolToBooleanObject: route through the canonical singletons. -/
def nativeBoolToBooleanObject (input : Bool) : Obj :=
  if input then TrueObj else FalseObj

/-- vm.executeIntegerComparison (vm.go lines 407–422).  The casts
`left.(*object.Integer)` are guaranteed by the caller's type test; a
failing cast would be a Go panic. -/
def executeIntegerComparison (vm : VMState) (op : Opcode) (left right : Obj) : Outcome :=
  match left, right with
  | .intObj leftValue, .intObj rightValue =>
    match op with
    | .OpEqual => push vm (nativeBoolToBooleanObject (decide (leftValue = rightValue)))
    | .OpNotEqual => push vm (nativeBoolToBooleanObject (decide (leftValue ≠ rightValue)))
    | .OpGreaterThan => push vm (nativeBoolToBooleanObject (decide (leftValue > rightValue)))
    | _ => .err (.unknownOperatorCmpInt op)
  | _, _ => .crash

/-- vm.executeComparison (vm.go lines 389–405): pop right then left;
Integer pairs go to executeIntegerComparison, everything else is compared
with Go interface equality `left == right` — pointer identity, which
structural equality of `Obj` models. -/
def executeComparison (vm : VMState) (op : Opcode) : Outcome :=
  match pop vm with
  | none => .crash
  | some (right, vm1) =>
    match pop vm1 with
    | none => .crash
    | some (left, vm2) =>
      if left.type = INTEGER_OBJ ∧ right.type = INTEGER_OBJ then
        executeIntegerComparison vm2 op left right
      else
        match op with
        | .OpEqual => push vm2 (nativeBoolToBooleanObject (decide (left = right)))
        | .OpNotEqual => push vm2 (nativeBoolToBooleanObject (decide (left ≠ right)))
        | _ => .err (.unknownOperatorCmp op left.type right.type)

/-- vm.executeBinaryStringOperation (vm.go lines 481–490): only OpAdd is
accepted; the result is a freshly allocated String. -/
def executeBinaryStringOperation (vm : VMState) (op : Opcode) (left right : Obj) : Outcome :=
  if op ≠ .OpAdd then .err (.unknownStringOperator op)
  else
    match left, right with
    | .strObj _ leftValue, .strObj _ rightValue =>
      push { vm with nextAddr := vm.nextAddr + 1 }
        (.strObj vm.nextAddr (leftValue ++ rightValue))
    | _, _ => .crash

/-- vm.executeBinaryIntegerOperation (vm.go lines 492–512).  Division is
Go's int64 truncated division; a zero divisor panics in Go. -/
def executeBinaryIntegerOperation (vm : VMState) (op : Opcode) (left right : Obj) : Outcome :=
  match left, right with
  | .intObj leftValue, .intObj rightValue =>
    match op with
    | .OpAdd => push vm (.intObj (leftValue + rightValue))
    | .OpSub => push vm (.intObj (leftValue - rightValue))
    | .OpMul => push vm (.intObj (leftValue * rightValue))
    | .OpDiv =>
      if rightValue = 0 then .crash
      else push vm (.intObj (Int.tdiv leftValue rightValue))
    | _ => .err (.unknownIntegerOperator op)
  | _, _ => .crash

/-- vm.executeBinaryOperation (vm.go lines 461–479). -/
def executeBinaryOperation (vm : VMState) (op : Opcode) : Outcome :=
  match pop vm with
  | none => .crash
  | some (right, vm1) =>
    match pop vm1 with
    | none => .crash
    | some (left, vm2) =>
      let leftType := left.type
      let rightType := right.type
      if leftType = INTEGER_OBJ ∧ rightType = INTEGER_OBJ then
        executeBinaryIntegerOperation vm2 op left right
      else if leftType = STRING_OBJ ∧ rightType = STRING_OBJ then
        executeBinaryStringOperation vm2 op left right
      else .err (.unsupportedTypesForBinaryOperation leftType rightType)

/-- vm.executeArrayIndexExpression (vm.go lines 290–299): an index below 0
or above `len − 1` pushes the canonical Null, otherwise push the element.
The casts to `*object.Array` and `*object.Integer` are guaranteed by the
dispatch in executeIndexExpression; a failing cast or a dangling array
handle would be a Go panic. -/
def executeArrayIndexExpression (vm : VMState) (left index : Obj) : Outcome :=
  match left, index with
  | .arrObj addr, .intObj i =>
    match vm.arrays.get? addr with
    | none => .crash
    | some elements =>
      let maxIdx : Int := (elements.length : Int) - 1
      if i < 0 ∨ i > maxIdx then push vm NullObj
      else
        match elements.get? i.toNat with
        | some o => push vm o
        | none => .crash
  | _, _ => .crash

/-- vm.executeArrayIndexAssignmentExpression (vm.go lines 327–338): the
same bounds rule, but in range the element is overwritten in place (the
heap entry of the array is mutated) and `Elements[i]` — the value just
stored — is pushed. -/
def executeArrayIndexAssignmentExpression (vm : VMState) (left index value : Obj) : Outcome :=
  match left, index with
  | .arrObj addr, .intObj i =>
    match vm.arrays.get? addr with
    | none => .crash
    | some elements =>
      let maxIdx : Int := (elements.length : Int) - 1
      if i < 0 ∨ i > maxIdx then push vm NullObj
      else
        let elements1 := elements.set i.toNat value
        let vm1 : VMState := { vm with arrays := vm.arrays.set addr elements1 }
        match elements1.get? i.toNat with
        | some o => push vm1 o
        | none => .crash
  | _, _ => .crash

/-! Symbol table (compiler package, symbol_table.go). -/

def GlobalScope : String := "GLOBAL"

def LocalScope : String := "LOCAL"

def BuiltinScope : String := "BUILTIN"

/-- compiler.Symbol. -/
structure Symbol where
  name : String
  scope : String
  index : Nat
  deriving DecidableEq, Repr

/-- compiler.SymbolTable: a store, a definition count, and an optional
outer table.  The Go struct's nil/non-nil `Outer` pointer is split into
the two constructors. -/
inductive SymbolTable where
  | root (store : List (String × Symbol)) (numDefinitions : Nat)
  | enclosed (store : List (String × Symbol)) (numDefinitions : Nat) (outer : SymbolTable)
  deriving Repr

/-- Lookup in the Go map `store` (keys are unique). -/
def storeLookup (s : List (String × Symbol)) (name : String) : Option Symbol :=
  match s with
  | [] => none
  | (k, v) :: rest => if k = name then some v else storeLookup rest name

/-- Insert-or-replace in the Go map `store`. -/
def storeInsert (s : List (String × Symbol)) (name : String) (sym : Symbol) :
    List (String × Symbol) :=
  match s with
  | [] => [(name, sym)]
  | (k, v) :: rest =>
    if k = name then (name, sym) :: rest else (k, v) :: storeInsert rest name sym

def SymbolTable.store : SymbolTable → List (String × Symbol)
  | .root s _ => s
  | .enclosed s _ _ => s

def SymbolTable.numDefinitions : SymbolTable → Nat
  | .root _ n => n
  | .enclosed _ n _ => n

def SymbolTable.outer : SymbolTable → Option SymbolTable
  | .root _ _ => none
  | .enclosed _ _ o => some o

/-- compiler.NewSymbolTable. -/
def NewSymbolTable : SymbolTable := .root [] 0

/-- compiler.NewEnclosedSymbolTable. -/
def NewEnclosedSymbolTable (outer : SymbolTable) : SymbolTable := .enclosed [] 0 outer

/-- compiler.SymbolTable.Define: the symbol's scope is GlobalScope, turned
into LocalScope when an outer table exists; its index is the current
definition count; the store gains the binding and the count increments. -/
def Define (st : SymbolTable) (name : String) : Symbol × SymbolTable :=
  match st with
  | .root store numDefinitions =>
    let symbol : Symbol := { name := name, scope := GlobalScope, index := numDefinitions }
    (symbol, .root (storeInsert store name symbol) (numDefinitions + 1))
  | .enclosed store numDefinitions outer =>
    let symbol : Symbol := { name := name, scope := LocalScope, index := numDefinitions }
    (symbol, .enclosed (storeInsert store name symbol) (numDefinitions + 1) outer)

/-- compiler.SymbolTable.DefineBuiltin: BuiltinScope with the supplied
index; the definition count is not touched. -/
def DefineBuiltin (st : SymbolTable) (index : Nat) (name : String) : Symbol × SymbolTable :=
  let symbol : Symbol := { name := name, scope := BuiltinScope, index := index }
  match st with
  | .root store numDefinitions =>
    (symbol, .root (storeInsert store name symbol) numDefinitions)
  | .enclosed store numDefinitions outer =>
    (symbol, .enclosed (storeInsert store name symbol) numDefinitions outer)

/-- compiler.SymbolTable.Resolve: local store first, then the outer chain;
`none` models the Go `(Symbol{}, false)` miss. -/
def Resolve (st : SymbolTable) (name : String) : Option Symbol :=
  match st with
  | .root store _ => storeLookup store name
  | .enclosed store _ outer =>
    match storeLookup store name with
    | some s => some s
    | none => Resolve outer name

/-- The chain of tables from a table to the root, innermost first. -/
def chain : SymbolTable → List SymbolTable
  | .root s n => [.root s n]
  | .enclosed s n outer => .enclosed s n outer :: chain outer

/-- Run Define for each name in order on one table. -/
def defineAll (st : SymbolTable) (names : List String) : SymbolTable :=
  names.foldl (fun t m => (Define t m).2) st

/-- Build a chain of enclosed tables over `st`, defining the given names
at each level. -/
def buildChain (st : SymbolTable) (levels : List (List String)) : SymbolTable :=
  levels.foldl (fun t names => defineAll (NewEnclosedSymbolTable t) names) st

/-! Builtins (object package, builtins.go).  The builtin procedures never
depend on allocation identity, so their values are modelled structurally. -/

/-- Values as seen by the builtin procedures of the object package. -/
inductive BObj where
  | int (value : Int)
  | str (value : String)
  | bool (value : Bool)
  | null
  | arr (elements : List BObj)
  | hash
  | error (message : String)

/-- Result of a builtin `Fn`: an Object, the Go `nil` interface value, or
a Go runtime panic. -/
inductive BRes where
  | val (o : BObj)
  | nilRes
  | crashRes

/-- Method `Type()` on builtin-level values. -/
def BObj.type : BObj → String
  | .int _ => INTEGER_OBJ
  | .str _ => STRING_OBJ
  | .bool _ => BOOLEAN_OBJ
  | .null => NULL_OBJ
  | .arr _ => ARRAY_OBJ
  | .hash => HASH_OBJ
  | .error _ => "ERROR"

/-- object.newError. -/
def newError (message : String) : BRes := .val (.error message)

/-- The `first` builtin (builtins.go lines 31–50): exactly one argument,
which must be an Array; a non-empty array yields element 0 and an empty
array yields the Go `nil` return at line 48. -/
def firstFn (args : List BObj) : BRes :=
  if args.length ≠ 1 then
    newError ("wrong number of arguments to `len`. got=" ++ Nat.repr args.length ++ ", want=1")
  else
    match args.get? 0 with
    | none => .crashRes
    | some a =>
      if a.type ≠ ARRAY_OBJ then
        newError ("argument to `first` must be ARRAY, got " ++ a.type)
      else
        match a with
        | .arr elements =>
          if elements.length > 0 then
            match elements.get? 0 with
            | some e => .val e
            | none => .crashRes
          else .nilRes
        | _ => .crashRes

/-- The `last` builtin (builtins.go lines 51–71): like `first`, but yields
the last element; the empty array returns Go `nil` at line 69. -/
def lastFn (args : List BObj) : BRes :=
  if args.length ≠ 1 then
    newError ("wrong number of arguments to `len`. got=" ++ Nat.repr args.length ++ ", want=1")
  else
    match args.get? 0 with
    | none => .crashRes
    | some a =>
      if a.type ≠ ARRAY_OBJ then
        newError ("argument to `last` must be ARRAY, got " ++ a.type)
      else
        match a with
        | .arr elements =>
          if elements.length > 0 then
            match elements.get? (elements.length - 1) with
            | some e => .val e
            | none => .crashRes
          else .nilRes
        | _ => .crashRes

/-- The `rest` builtin (builtins.go lines 72–94): a non-empty array yields
a new Array of `Elements[1:]`; the empty array returns Go `nil` at line 92. -/
def restFn (args : List BObj) : BRes :=
  if args.length ≠ 1 then
    newError ("wrong number of arguments to `len`. got=" ++ Nat.repr args.length ++ ", want=1")
  else
    match args.get? 0 with
    | none => .crashRes
    | some a =>
      if a.type ≠ ARRAY_OBJ then
        newError ("argument to `rest` must be ARRAY, got " ++ a.type)
      else
        match a with
        | .arr elements =>
          if elements.length > 0 then .val (.arr (elements.drop 1))
          else .nilRes
        | _ => .crashRes

/-- Two's-complement wrap-around of Go's int64 arithmetic: the unique
value congruent to `x` mod 2^64 lying in [−2^63, 2^63). -/
def wrap64 (x : Int) : Int := (x + 2 ^ 63) % 2 ^ 64 - 2 ^ 63

/-- The `range` builtin (builtins.go lines 126–153): two Integer arguments
`start`, `end`; Go computes `end − start` in int64, which wraps on
overflow, and `make` panics when the wrapped length is negative; slot `i`
of the result holds the int64 sum `start + int64(i)`, which also wraps. -/
def rangeFn (args : List BObj) : BRes :=
  if args.length ≠ 2 then
    newError ("wrong number of arguments to `range`. got=" ++ Nat.repr args.length ++ ", want=2")
  else
    match args.get? 0, args.get? 1 with
    | some a0, some a1 =>
      if a0.type ≠ INTEGER_OBJ ∨ a1.type ≠ INTEGER_OBJ then
        newError "arg must be INTEGERS"
      else
        match a0, a1 with
        | .int start, .int stop =>
          if wrap64 (stop - start) < 0 then .crashRes
          else
            .val (.arr ((List.range (wrap64 (stop - start)).toNat).map
              (fun (i : Nat) => .int (wrap64 (start + (i : Int))))))
        | _, _ => .crashRes
    | _, _ => .crashRes

/-! Helper lemmas. -/

theorem storeLookup_insert_self (s : List (String × Symbol)) (n : String) (sym : Symbol) :
    storeLookup (storeInsert s n sym) n = some sym := by
  induction s with
  | nil => simp [storeInsert, storeLookup]
  | cons hd tl ih =>
    obtain ⟨k, v⟩ := hd
    by_cases hk : k = n <;> simp [storeInsert, storeLookup, hk, ih]

theorem storeLookup_insert_ne (s : List (String × Symbol)) (n m : String) (sym : Symbol)
    (h : m ≠ n) : storeLookup (storeInsert s n sym) m = storeLookup s m := by
  have h' : n ≠ m := Ne.symm h
  induction s with
  | nil => simp [storeInsert, storeLookup, h']
  | cons hd tl ih =>
    obtain ⟨k, v⟩ := hd
    by_cases hk : k = n
    · subst hk
      simp [storeInsert, storeLookup, h']
    · simp only [storeInsert, if_neg hk, storeLookup]
      by_cases hm : k = m <;> simp [hm, ih]

theorem resolve_define_ne (st : SymbolTable) (m n : String) (h : n ≠ m) :
    Resolve (Define st m).2 n = Resolve st n := by
  cases st <;> simp [Define, Resolve, storeLookup_insert_ne _ _ _ _ h]

theorem resolve_newEnclosed (st : SymbolTable) (n : String) :
    Resolve (NewEnclosedSymbolTable st) n = Resolve st n := by
  simp [NewEnclosedSymbolTable, Resolve, storeLookup]

theorem resolve_defineAll_ne (names : List String) (st : SymbolTable) (n : String)
    (h : n ∉ names) : Resolve (defineAll st names) n = Resolve st n := by
  induction names generalizing st with
  | nil => simp [defineAll]
  | cons hd tl ih =>
    simp only [List.mem_cons, not_or] at h
    have step : defineAll st (hd :: tl) = defineAll (Define st hd).2 tl := by
      simp [defineAll]
    rw [step, ih _ h.2, resolve_define_ne _ _ _ h.1]

theorem resolve_buildChain_ne (levels : List (List String)) (st : SymbolTable) (n : String)
    (h : ∀ names ∈ levels, n ∉ names) :
    Resolve (buildChain st levels) n = Resolve st n := by
  induction levels generalizing st with
  | nil => simp [buildChain]
  | cons hd tl ih =>
    have step : buildChain st (hd :: tl) =
        buildChain (defineAll (NewEnclosedSymbolTable st) hd) tl := by
      simp [buildChain]
    rw [step, ih _ (fun names hn => h names (List.mem_cons_of_mem _ hn)),
      resolve_defineAll_ne _ _ _ (h hd (List.mem_cons_self _ _)), resolve_newEnclosed]

@[simp] theorem store_root (s : List (String × Symbol)) (c : Nat) :
    (SymbolTable.root s c).store = s := rfl

@[simp] theorem store_enclosed (s : List (String × Symbol)) (c : Nat) (o : SymbolTable) :
    (SymbolTable.enclosed s c o).store = s := rfl

theorem resolve_eq_chain (st : SymbolTable) (n : String) :
    Resolve st n = (chain st).findSome? (fun tb => storeLookup tb.store n) := by
  induction st with
  | root s c =>
    simp only [Resolve, chain, List.findSome?_cons, store_root, List.findSome?_nil]
    cases storeLookup s n <;> rfl
  | enclosed s c outer ih =>
    simp only [Resolve, chain, List.findSome?_cons, store_enclosed]
    cases storeLookup s n <;> simp [ih]

theorem resolve_defineBuiltin_self (st : SymbolTable) (i : Nat) (n : String) :
    Resolve (DefineBuiltin st i n).2 n =
      some { name := n, scope := BuiltinScope, index := i } := by
  cases st <;> simp [DefineBuiltin, Resolve, storeLookup_insert_self]

theorem push_ok (vm : VMState) (o : Obj) (h1 : vm.sp < StackSize)
    (h2 : vm.sp < vm.stack.length) :
    push vm o = .ok { vm with stack := vm.stack.set vm.sp o, sp := vm.sp + 1 } := by
  simp [push, Nat.not_le.mpr h1, h2]

theorem pop_some (vm : VMState) (spv : Nat) (o : Obj)
    (hs : vm.sp = spv + 1) (ho : vm.stack[spv]? = some o) :
    pop vm = some (o, { vm with sp := spv }) := by
  simp [pop, hs, ho]

theorem callFunction_ok (vm : VMState) (numArgs : Nat) (cf : Frame) (fn : CompiledFunction)
    (hfi : vm.framesIndex ≠ 0)
    (hcf : vm.frames[vm.framesIndex - 1]? = some cf)
    (hsp : numArgs + 1 ≤ vm.sp)
    (hcallee : vm.stack[vm.sp - 1 - numArgs]? = some (.fnObj fn))
    (hparams : fn.numParameters = numArgs)
    (hcap : vm.framesIndex < vm.frames.length) :
    callFunction vm numArgs =
      .ok { vm with
            frames := (vm.frames.set (vm.framesIndex - 1)
                        { cf with ip := cf.ip + 1 }).set vm.framesIndex
                        (NewFrame fn (vm.sp - numArgs)),
            framesIndex := vm.framesIndex + 1,
            sp := (vm.sp - numArgs) + fn.numLocals } := by
  have hsp' : ¬ vm.sp < numArgs + 1 := Nat.not_lt.mpr hsp
  simp [callFunction, hfi, hcf, hsp', hcallee, hparams, hcap, NewFrame, List.length_set]

theorem callFunction_non_function (vm : VMState) (numArgs : Nat) (cf : Frame) (callee : Obj)
    (hfi : vm.framesIndex ≠ 0)
    (hcf : vm.frames[vm.framesIndex - 1]? = some cf)
    (hsp : numArgs + 1 ≤ vm.sp)
    (hcallee : vm.stack[vm.sp - 1 - numArgs]? = some callee)
    (hnf : ∀ fn, callee ≠ .fnObj fn) :
    callFunction vm numArgs = .err .callingNonFunction := by
  have hsp' : ¬ vm.sp < numArgs + 1 := Nat.not_lt.mpr hsp
  cases callee <;>
    first
      | exact absurd rfl (hnf _)
      | simp [callFunction, hfi, hcf, hsp', hcallee]

theorem callFunction_wrong_arity (vm : VMState) (numArgs : Nat) (cf : Frame)
    (fn : CompiledFunction)
    (hfi : vm.framesIndex ≠ 0)
    (hcf : vm.frames[vm.framesIndex - 1]? = some cf)
    (hsp : numArgs + 1 ≤ vm.sp)
    (hcallee : vm.stack[vm.sp - 1 - numArgs]? = some (.fnObj fn))
    (hne : fn.numParameters ≠ numArgs) :
    callFunction vm numArgs = .err (.wrongNumberOfArguments fn.numParameters numArgs) := by
  have hsp' : ¬ vm.sp < numArgs + 1 := Nat.not_lt.mpr hsp
  simp [callFunction, hfi, hcf, hsp', hcallee, hne]

theorem callFunction_no_error (vm : VMState) (numArgs : Nat) (cf : Frame)
    (fn : CompiledFunction)
    (hfi : vm.framesIndex ≠ 0)
    (hcf : vm.frames[vm.framesIndex - 1]? = some cf)
    (hsp : numArgs + 1 ≤ vm.sp)
    (hcallee : vm.stack[vm.sp - 1 - numArgs]? = some (.fnObj fn))
    (hparams : fn.numParameters = numArgs) :
    ∀ e, callFunction vm numArgs ≠ .err e := by
  intro e
  have hsp' : ¬ vm.sp < numArgs + 1 := Nat.not_lt.mpr hsp
  by_cases hcap : vm.framesIndex < vm.frames.length <;>
    simp [callFunction, hfi, hcf, hsp', hcallee, hparams, hcap, List.length_set]

theorem opReturnValue_ok (vm : VMState) (spv bp : Nat) (rv : Obj) (frame : Frame)
    (hs : vm.sp = spv + 1)
    (hrv : vm.stack[spv]? = some rv)
    (hfi : vm.framesIndex ≠ 0)
    (hfr : vm.frames[vm.framesIndex - 1]? = some frame)
    (hbp : frame.basePointer = bp + 1)
    (hb1 : bp < StackSize)
    (hb2 : bp < vm.stack.length) :
    opReturnValue vm =
      .ok { vm with stack := vm.stack.set bp rv, sp := bp + 1,
                    framesIndex := vm.framesIndex - 1 } := by
  have h1 : pop vm = some (rv, { vm with sp := spv }) := pop_some vm spv rv hs hrv
  simp [opReturnValue, h1, hfi, hfr, hbp, push, Nat.not_le.mpr hb1, hb2]

theorem opReturn_ok (vm : VMState) (bp : Nat) (frame : Frame)
    (hfi : vm.framesIndex ≠ 0)
    (hfr : vm.frames[vm.framesIndex - 1]? = some frame)
    (hbp : frame.basePointer = bp + 1)
    (hb1 : bp < StackSize)
    (hb2 : bp < vm.stack.length) :
    opReturn vm =
      .ok { vm with stack := vm.stack.set bp NullObj, sp := bp + 1,
                    framesIndex := vm.framesIndex - 1 } := by
  simp [opReturn, hfi, hfr, hbp, push, Nat.not_le.mpr hb1, hb2]

/-! Claim theorems. -/

/-- C1: a successful OpCall with numArgs arguments pushes a frame with
base pointer sp − numArgs and sets sp to base pointer + NumLocals of the
callee; OpReturnValue pops the return value, pops the frame, sets sp to
that frame's base pointer − 1 and pushes the return value (so the final sp
is the base pointer and the slot below holds the value); OpReturn does the
same pushing the canonical Null; composing a call with the matching return
leaves sp at the caller's sp − numArgs with exactly the returned value on
top, the callee reference, the arguments and the locals all discarded. -/
theorem C1_call_return_protocol :
    (∀ (vm : VMState) (numArgs : Nat) (cf : Frame) (fn : CompiledFunction),
      vm.framesIndex ≠ 0 →
      vm.frames[vm.framesIndex - 1]? = some cf →
      numArgs + 1 ≤ vm.sp →
      vm.stack[vm.sp - 1 - numArgs]? = some (.fnObj fn) →
      fn.numParameters = numArgs →
      vm.framesIndex < vm.frames.length →
      ∃ vmA, callFunction vm numArgs = .ok vmA ∧
        vmA.frames[vm.framesIndex]? = some { fn := fn, ip := -1,
                                             basePointer := vm.sp - numArgs } ∧
        vmA.framesIndex = vm.framesIndex + 1 ∧
        vmA.sp = (vm.sp - numArgs) + fn.numLocals ∧
        vmA.stack = vm.stack) ∧
    (∀ (vm : VMState) (spv bp : Nat) (rv : Obj) (frame : Frame),
      vm.sp = spv + 1 →
      vm.stack[spv]? = some rv →
      vm.framesIndex ≠ 0 →
      vm.frames[vm.framesIndex - 1]? = some frame →
      frame.basePointer = bp + 1 →
      bp < StackSize →
      bp < vm.stack.length →
      ∃ vmB, opReturnValue vm = .ok vmB ∧
        vmB.sp = frame.basePointer ∧
        vmB.stack[bp]? = some rv ∧
        vmB.framesIndex = vm.framesIndex - 1 ∧
        ∀ j, j ≠ bp → vmB.stack[j]? = vm.stack[j]?) ∧
    (∀ (vm : VMState) (bp : Nat) (frame : Frame),
      vm.framesIndex ≠ 0 →
      vm.frames[vm.framesIndex - 1]? = some frame →
      frame.basePointer = bp + 1 →
      bp < StackSize →
      bp < vm.stack.length →
      ∃ vmC, opReturn vm = .ok vmC ∧
        vmC.sp = frame.basePointer ∧
        vmC.stack[bp]? = some NullObj ∧
        vmC.framesIndex = vm.framesIndex - 1) ∧
    (∀ (sp0 numArgs : Nat) (exec : VMState) (g : Frame) (spv : Nat) (rv : Obj),
      numArgs + 1 ≤ sp0 →
      exec.frames[exec.framesIndex - 1]? = some g →
      g.basePointer = sp0 - numArgs →
      exec.framesIndex ≠ 0 →
      exec.sp = spv + 1 →
      exec.stack[spv]? = some rv →
      sp0 - numArgs - 1 < StackSize →
      sp0 - numArgs - 1 < exec.stack.length →
      ∃ vmD, opReturnValue exec = .ok vmD ∧
        vmD.sp = sp0 - numArgs ∧
        vmD.stack[sp0 - numArgs - 1]? = some rv) := by
  refine ⟨?_, ?_, ?_, ?_⟩
  · intro vm numArgs cf fn hfi hcf hsp hcallee hparams hcap
    refine ⟨_, callFunction_ok vm numArgs cf fn hfi hcf hsp hcallee hparams hcap, ?_, ?_, ?_, ?_⟩
    · show ((vm.frames.set (vm.framesIndex - 1) { cf with ip := cf.ip + 1 }).set
        vm.framesIndex (NewFrame fn (vm.sp - numArgs)))[vm.framesIndex]? = _
      rw [List.getElem?_set_eq_of_lt _ (by simpa using hcap)]
      rfl
    · rfl
    · rfl
    · rfl
  · intro vm spv bp rv frame hs hrv hfi hfr hbp hb1 hb2
    refine ⟨_, opReturnValue_ok vm spv bp rv frame hs hrv hfi hfr hbp hb1 hb2, ?_, ?_, ?_, ?_⟩
    · simpa using hbp.symm
    · exact List.getElem?_set_eq_of_lt _ hb2
    · rfl
    · intro j hj
      exact List.getElem?_set_ne (Ne.symm hj)
  · intro vm bp frame hfi hfr hbp hb1 hb2
    refine ⟨_, opReturn_ok vm bp frame hfi hfr hbp hb1 hb2, ?_, ?_, ?_⟩
    · simpa using hbp.symm
    · exact List.getElem?_set_eq_of_lt _ hb2
    · rfl
  · intro sp0 numArgs exec g spv rv hsp hg hgbp hfi hes hrv hb1 hb2
    have hbp : g.basePointer = (sp0 - numArgs - 1) + 1 := by omega
    refine ⟨_, opReturnValue_ok exec spv (sp0 - numArgs - 1) rv g hes hrv hfi hg hbp hb1 hb2,
      ?_, ?_⟩
    · show (sp0 - numArgs - 1) + 1 = sp0 - numArgs
      omega
    · exact List.getElem?_set_eq_of_lt _ hb2

/-- C1 witness: a concrete call of a one-parameter, two-local function from
the main frame, and a concrete matching return. -/
theorem C1_call_return_protocol_witness :
    (∃ vmA, callFunction
        { constants := [], stack := [.intObj 99, .fnObj ⟨5, [], 2, 1⟩, .intObj 42,
                                     NullObj, NullObj, NullObj],
          sp := 3, globals := [], frames := [⟨⟨0, [], 0, 0⟩, 3, 0⟩, ⟨⟨0, [], 0, 0⟩, 3, 0⟩],
          framesIndex := 1, arrays := [], nextAddr := 0 } 1 = .ok vmA ∧
      vmA.frames[1]? = some { fn := ⟨5, [], 2, 1⟩, ip := -1, basePointer := 2 } ∧
      vmA.framesIndex = 2 ∧
      vmA.sp = 4 ∧
      vmA.stack = [.intObj 99, .fnObj ⟨5, [], 2, 1⟩, .intObj 42, NullObj, NullObj, NullObj]) ∧
    (∃ vmD, opReturnValue
        { constants := [], stack := [.intObj 99, .fnObj ⟨5, [], 2, 1⟩, .intObj 42,
                                     NullObj, .intObj 7, NullObj],
          sp := 5, globals := [], frames := [⟨⟨0, [], 0, 0⟩, 4, 0⟩, ⟨⟨5, [], 2, 1⟩, 9, 2⟩],
          framesIndex := 2, arrays := [], nextAddr := 0 } = .ok vmD ∧
      vmD.sp = 2 ∧ vmD.stack[1]? = some (.intObj 7)) := by
  constructor
  · have h := C1_call_return_protocol.1
      { constants := [], stack := [.intObj 99, .fnObj ⟨5, [], 2, 1⟩, .intObj 42,
                                   NullObj, NullObj, NullObj],
        sp := 3, globals := [], frames := [⟨⟨0, [], 0, 0⟩, 3, 0⟩, ⟨⟨0, [], 0, 0⟩, 3, 0⟩],
        framesIndex := 1, arrays := [], nextAddr := 0 } 1 ⟨⟨0, [], 0, 0⟩, 3, 0⟩ ⟨5, [], 2, 1⟩
      (by decide) (by decide) (by decide) (by decide) (by decide) (by decide)
    exact h
  · have h := C1_call_return_protocol.2.2.2 3 1
      { constants := [], stack := [.intObj 99, .fnObj ⟨5, [], 2, 1⟩, .intObj 42,
                                   NullObj, .intObj 7, NullObj],
        sp := 5, globals := [], frames := [⟨⟨0, [], 0, 0⟩, 4, 0⟩, ⟨⟨5, [], 2, 1⟩, 9, 2⟩],
        framesIndex := 2, arrays := [], nextAddr := 0 } ⟨⟨5, [], 2, 1⟩, 9, 2⟩ 4 (.intObj 7)
      (by decide) (by decide) (by decide) (by decide) (by decide) (by decide)
      (by decide) (by decide)
    exact h

/-- C2: OpCall with a non-CompiledFunction callee at stack[sp − 1 − numArgs]
errors with "calling non-function"; a CompiledFunction callee whose
NumParameters differs from numArgs errors with exactly
"wrong number of arguments: want=W got=G"; a matching callee raises no
error from the call step. -/
theorem C2_call_errors :
    (∀ (vm : VMState) (numArgs : Nat) (cf : Frame) (callee : Obj),
      vm.framesIndex ≠ 0 →
      vm.frames[vm.framesIndex - 1]? = some cf →
      numArgs + 1 ≤ vm.sp →
      vm.stack[vm.sp - 1 - numArgs]? = some callee →
      (∀ fn, callee ≠ .fnObj fn) →
      callFunction vm numArgs = .err .callingNonFunction ∧
      renderError .callingNonFunction = "calling non-function") ∧
    (∀ (vm : VMState) (numArgs : Nat) (cf : Frame) (fn : CompiledFunction),
      vm.framesIndex ≠ 0 →
      vm.frames[vm.framesIndex - 1]? = some cf →
      numArgs + 1 ≤ vm.sp →
      vm.stack[vm.sp - 1 - numArgs]? = some (.fnObj fn) →
      fn.numParameters ≠ numArgs →
      callFunction vm numArgs = .err (.wrongNumberOfArguments fn.numParameters numArgs) ∧
      renderError (.wrongNumberOfArguments fn.numParameters numArgs) =
        "wrong number of arguments: want=" ++ Nat.repr fn.numParameters ++
          " got=" ++ Nat.repr numArgs) ∧
    (∀ (vm : VMState) (numArgs : Nat) (cf : Frame) (fn : CompiledFunction),
      vm.framesIndex ≠ 0 →
      vm.frames[vm.framesIndex - 1]? = some cf →
      numArgs + 1 ≤ vm.sp →
      vm.stack[vm.sp - 1 - numArgs]? = some (.fnObj fn) →
      fn.numParameters = numArgs →
      ∀ e, callFunction vm numArgs ≠ .err e) := by
  refine ⟨?_, ?_, ?_⟩
  · intro vm numArgs cf callee hfi hcf hsp hcallee hnf
    exact ⟨callFunction_non_function vm numArgs cf callee hfi hcf hsp hcallee hnf, rfl⟩
  · intro vm numArgs cf fn hfi hcf hsp hcallee hne
    exact ⟨callFunction_wrong_arity vm numArgs cf fn hfi hcf hsp hcallee hne, rfl⟩
  · exact callFunction_no_error

/-- C2 witness: concrete non-function callee and concrete arity mismatch
(want=2 got=1), plus a matching call that is not an error. -/
theorem C2_call_errors_witness :
    callFunction
      { constants := [], stack := [.intObj 99, .intObj 42, NullObj],
        sp := 2, globals := [], frames := [⟨⟨0, [], 0, 0⟩, 3, 0⟩, ⟨⟨0, [], 0, 0⟩, 3, 0⟩],
        framesIndex := 1, arrays := [], nextAddr := 0 } 1 = .err .callingNonFunction ∧
    callFunction
      { constants := [], stack := [.fnObj ⟨5, [], 2, 2⟩, .intObj 42, NullObj],
        sp := 2, globals := [], frames := [⟨⟨0, [], 0, 0⟩, 3, 0⟩, ⟨⟨0, [], 0, 0⟩, 3, 0⟩],
        framesIndex := 1, arrays := [], nextAddr := 0 } 1 =
      .err (.wrongNumberOfArguments 2 1) ∧
    renderError (.wrongNumberOfArguments 2 1) = "wrong number of arguments: want=2 got=1" ∧
    (∀ e, callFunction
      { constants := [], stack := [.fnObj ⟨5, [], 0, 1⟩, .intObj 42, NullObj],
        sp := 2, globals := [], frames := [⟨⟨0, [], 0, 0⟩, 3, 0⟩, ⟨⟨0, [], 0, 0⟩, 3, 0⟩],
        framesIndex := 1, arrays := [], nextAddr := 0 } 1 ≠ .err e) := by
  refine ⟨?_, ?_, ?_, ?_⟩
  · exact (C2_call_errors.1
      { constants := [], stack := [.intObj 99, .intObj 42, NullObj],
        sp := 2, globals := [], frames := [⟨⟨0, [], 0, 0⟩, 3, 0⟩, ⟨⟨0, [], 0, 0⟩, 3, 0⟩],
        framesIndex := 1, arrays := [], nextAddr := 0 } 1 ⟨⟨0, [], 0, 0⟩, 3, 0⟩ (.intObj 99)
      (by decide) (by decide) (by decide) (by decide) (by intro fn h; cases h)).1
  · exact (C2_call_errors.2.1
      { constants := [], stack := [.fnObj ⟨5, [], 2, 2⟩, .intObj 42, NullObj],
        sp := 2, globals := [], frames := [⟨⟨0, [], 0, 0⟩, 3, 0⟩, ⟨⟨0, [], 0, 0⟩, 3, 0⟩],
        framesIndex := 1, arrays := [], nextAddr := 0 } 1 ⟨⟨0, [], 0, 0⟩, 3, 0⟩ ⟨5, [], 2, 2⟩
      (by decide) (by decide) (by decide) (by decide) (by decide)).1
  · decide
  · exact C2_call_errors.2.2
      { constants := [], stack := [.fnObj ⟨5, [], 0, 1⟩, .intObj 42, NullObj],
        sp := 2, globals := [], frames := [⟨⟨0, [], 0, 0⟩, 3, 0⟩, ⟨⟨0, [], 0, 0⟩, 3, 0⟩],
        framesIndex := 1, arrays := [], nextAddr := 0 } 1 ⟨⟨0, [], 0, 0⟩, 3, 0⟩ ⟨5, [], 0, 1⟩
      (by decide) (by decide) (by decide) (by decide) (by decide)

/-- C3: `Define(n)` returns a Symbol scoped LocalScope when the table has an
outer and GlobalScope otherwise, with index equal to the definition count
before the call; the count increments, the binding lands in this table only
(the outer is untouched), and redefining the same name overwrites the old
binding while the count still advances, giving the new symbol a fresh,
larger index. -/
theorem C3_define (st : SymbolTable) (n : String) :
    (Define st n).1 = { name := n,
                        scope := if st.outer.isSome then LocalScope else GlobalScope,
                        index := st.numDefinitions } ∧
    (Define st n).2.numDefinitions = st.numDefinitions + 1 ∧
    storeLookup (Define st n).2.store n = some (Define st n).1 ∧
    (∀ m, m ≠ n → storeLookup (Define st n).2.store m = storeLookup st.store m) ∧
    (Define st n).2.outer = st.outer ∧
    (Define (Define st n).2 n).1 = { name := n,
                                     scope := if st.outer.isSome then LocalScope
                                              else GlobalScope,
                                     index := st.numDefinitions + 1 } ∧
    storeLookup (Define (Define st n).2 n).2.store n = some (Define (Define st n).2 n).1 ∧
    (Define (Define st n).2 n).2.numDefinitions = st.numDefinitions + 2 := by
  cases st <;>
    simp [Define, SymbolTable.outer, SymbolTable.numDefinitions, SymbolTable.store,
      storeLookup_insert_self] <;>
    exact fun m hm => storeLookup_insert_ne _ _ _ _ hm

/-- C3 witness: concrete instantiation on the root table. -/
theorem C3_define_witness :
    (Define NewSymbolTable "a").1 = { name := "a", scope := GlobalScope, index := 0 } ∧
    storeLookup (Define NewSymbolTable "a").2.store "b" = none := by
  have h := C3_define NewSymbolTable "a"
  refine ⟨?_, ?_⟩
  · rw [h.1]; decide
  · rw [h.2.2.2.1 "b" (by decide)]; decide

/-- C4: `Resolve` returns the symbol of the innermost table of the chain
defining the name (the chain listed innermost first), and misses only when
no table in the chain defines it; `DefineBuiltin(i, n)` does not change the
definition count, and the installed name resolves from the table itself and
from every chain of enclosed tables that does not shadow it to a Symbol
with scope BuiltinScope and index i. -/
theorem C4_resolve_builtins :
    (∀ t n, Resolve t n = (chain t).findSome? (fun tb => storeLookup tb.store n)) ∧
    (∀ t n, Resolve t n = none ↔ ∀ tb ∈ chain t, storeLookup tb.store n = none) ∧
    (∀ t i n, (DefineBuiltin t i n).2.numDefinitions = t.numDefinitions) ∧
    (∀ t i n levels, (∀ names ∈ levels, n ∉ names) →
      Resolve (buildChain (DefineBuiltin t i n).2 levels) n =
        some { name := n, scope := BuiltinScope, index := i }) := by
  refine ⟨resolve_eq_chain, ?_, ?_, ?_⟩
  · intro t n
    rw [resolve_eq_chain, List.findSome?_eq_none_iff]
  · intro t i n
    cases t <;> simp [DefineBuiltin, SymbolTable.numDefinitions]
  · intro t i n levels h
    rw [resolve_buildChain_ne _ _ _ h, resolve_defineBuiltin_self]

/-- C4 witness: the test scenario — a builtin installed on the root resolves
through two empty enclosed tables. -/
theorem C4_resolve_builtins_witness :
    Resolve (buildChain (DefineBuiltin NewSymbolTable 0 "a").2 [[], []]) "a" =
      some { name := "a", scope := BuiltinScope, index := 0 } ∧
    (DefineBuiltin NewSymbolTable 0 "a").2.numDefinitions = 0 := by
  exact ⟨C4_resolve_builtins.2.2.2 NewSymbolTable 0 "a" [[], []] (by simp),
    C4_resolve_builtins.2.2.1 NewSymbolTable 0 "a"⟩

/-- C5: an Array read with an Integer index below 0 or above len − 1 pushes
the canonical Null; an out-of-range Array write pushes Null and leaves the
array's elements unchanged (the heap is not touched); an in-range write
stores the value at position i in place and pushes the stored value. -/
theorem C5_array_index_bounds (vm : VMState) (addr : Nat) (l : List Obj) (i : Int) (v : Obj)
    (harr : vm.arrays[addr]? = some l)
    (hsp1 : vm.sp < StackSize)
    (hsp2 : vm.sp < vm.stack.length) :
    ((i < 0 ∨ (l.length : Int) - 1 < i) →
      executeArrayIndexExpression vm (.arrObj addr) (.intObj i) =
        .ok { vm with stack := vm.stack.set vm.sp NullObj, sp := vm.sp + 1 } ∧
      executeArrayIndexAssignmentExpression vm (.arrObj addr) (.intObj i) v =
        .ok { vm with stack := vm.stack.set vm.sp NullObj, sp := vm.sp + 1 }) ∧
    (0 ≤ i → i ≤ (l.length : Int) - 1 →
      executeArrayIndexAssignmentExpression vm (.arrObj addr) (.intObj i) v =
        .ok { vm with arrays := vm.arrays.set addr (l.set i.toNat v),
                      stack := vm.stack.set vm.sp v, sp := vm.sp + 1 } ∧
      (l.set i.toNat v)[i.toNat]? = some v) := by
  have hpush : ¬ StackSize ≤ vm.sp := Nat.not_le.mpr hsp1
  constructor
  · intro hcond
    have hcond' : i < 0 ∨ (l.length : Int) - 1 < i := hcond
    constructor
    · simp [executeArrayIndexExpression, harr, hcond', push, hpush, hsp2]
    · simp [executeArrayIndexAssignmentExpression, harr, hcond', push, hpush, hsp2]
  · intro h0 hlt
    have hnotcond : ¬ (i < 0 ∨ (l.length : Int) - 1 < i) := by omega
    have htn : i.toNat < l.length := by omega
    have hset : (l.set i.toNat v)[i.toNat]? = some v := List.getElem?_set_self htn
    refine ⟨?_, hset⟩
    simp [executeArrayIndexAssignmentExpression, harr, hnotcond, hset, push, hpush, hsp2]

/-- C5 witness: reads and writes on a concrete two-element array, at the
out-of-range index −1 and at the in-range index 1. -/
theorem C5_array_index_bounds_witness :
    (executeArrayIndexExpression
        { constants := [], stack := [NullObj, NullObj], sp := 0, globals := [], frames := [],
          framesIndex := 0, arrays := [[.intObj 5, .intObj 6]], nextAddr := 0 }
        (.arrObj 0) (.intObj (-1)) =
      .ok { constants := [], stack := [NullObj, NullObj], sp := 1, globals := [], frames := [],
            framesIndex := 0, arrays := [[.intObj 5, .intObj 6]], nextAddr := 0 }) ∧
    (executeArrayIndexAssignmentExpression
        { constants := [], stack := [NullObj, NullObj], sp := 0, globals := [], frames := [],
          framesIndex := 0, arrays := [[.intObj 5, .intObj 6]], nextAddr := 0 }
        (.arrObj 0) (.intObj 1) (.intObj 77) =
      .ok { constants := [], stack := [.intObj 77, NullObj], sp := 1, globals := [], frames := [],
            framesIndex := 0, arrays := [[.intObj 5, .intObj 77]], nextAddr := 0 }) := by
  have h := C5_array_index_bounds
    { constants := [], stack := [NullObj, NullObj], sp := 0, globals := [], frames := [],
      framesIndex := 0, arrays := [[.intObj 5, .intObj 6]], nextAddr := 0 }
    0 [.intObj 5, .intObj 6] (-1) NullObj (by decide) (by decide) (by decide)
  have h2 := C5_array_index_bounds
    { constants := [], stack := [NullObj, NullObj], sp := 0, globals := [], frames := [],
      framesIndex := 0, arrays := [[.intObj 5, .intObj 6]], nextAddr := 0 }
    0 [.intObj 5, .intObj 6] 1 (.intObj 77) (by decide) (by decide) (by decide)
    |>.2 (by decide) (by decide)
  exact ⟨(h.1 (by decide)).1, h2.1⟩

/-- C6: OpEqual and OpNotEqual compare two Integers by numeric value; every
other pair of operands is compared by identity of the value handle, so two
distinct String allocations with equal contents compare unequal while an
operand identical to itself (in particular the canonical True, False and
Null singletons) compares equal. -/
theorem C6_equality_semantics (vm : VMState) (k : Nat) (left right : Obj)
    (hs : vm.sp = k + 2)
    (hr : vm.stack[k + 1]? = some right)
    (hl : vm.stack[k]? = some left)
    (hp1 : k < StackSize)
    (hp2 : k < vm.stack.length) :
    (∀ a b : Int, left = .intObj a → right = .intObj b →
      executeComparison vm .OpEqual =
        .ok { vm with stack := vm.stack.set k (nativeBoolToBooleanObject (decide (a = b))),
                      sp := k + 1 } ∧
      executeComparison vm .OpNotEqual =
        .ok { vm with stack := vm.stack.set k (nativeBoolToBooleanObject (decide (a ≠ b))),
                      sp := k + 1 }) ∧
    (¬ (left.type = INTEGER_OBJ ∧ right.type = INTEGER_OBJ) →
      executeComparison vm .OpEqual =
        .ok { vm with stack := vm.stack.set k (nativeBoolToBooleanObject (decide (left = right))),
                      sp := k + 1 } ∧
      executeComparison vm .OpNotEqual =
        .ok { vm with stack := vm.stack.set k (nativeBoolToBooleanObject (decide (left ≠ right))),
                      sp := k + 1 }) ∧
    (∀ a1 a2 : Nat, ∀ s : String, a1 ≠ a2 → left = .strObj a1 s → right = .strObj a2 s →
      executeComparison vm .OpEqual =
        .ok { vm with stack := vm.stack.set k FalseObj, sp := k + 1 }) ∧
    (left = right → left.type ≠ INTEGER_OBJ →
      executeComparison vm .OpEqual =
        .ok { vm with stack := vm.stack.set k TrueObj, sp := k + 1 }) := by
  have hpop1 : pop vm = some (right, { vm with sp := k + 1 }) :=
    pop_some vm (k + 1) right hs hr
  have hpop2 : pop { vm with sp := k + 1 } = some (left, { vm with sp := k }) :=
    pop_some { vm with sp := k + 1 } k left rfl hl
  have hpush : ¬ StackSize ≤ k := Nat.not_le.mpr hp1
  refine ⟨?_, ?_, ?_, ?_⟩
  · rintro a b rfl rfl
    constructor <;>
      simp [executeComparison, hpop1, hpop2, Obj.type, executeIntegerComparison,
        push, hpush, hp2]
  · intro hni
    constructor <;>
      simp [executeComparison, hpop1, hpop2, hni, push, hpush, hp2]
  · rintro a1 a2 s hne rfl rfl
    have hni : ¬ ((Obj.strObj a1 s).type = INTEGER_OBJ ∧
        (Obj.strObj a2 s).type = INTEGER_OBJ) := by
      simp [Obj.type, INTEGER_OBJ, STRING_OBJ]
    have hobj : Obj.strObj a1 s ≠ Obj.strObj a2 s := by simp [hne]
    simp [executeComparison, hpop1, hpop2, hni, hobj, push, hpush, hp2,
      nativeBoolToBooleanObject]
  · rintro rfl hni
    have hni' : ¬ (left.type = INTEGER_OBJ ∧ left.type = INTEGER_OBJ) := by
      intro hh
      exact hni hh.1
    simp [executeComparison, hpop1, hpop2, hni', push, hpush, hp2,
      nativeBoolToBooleanObject]
    exact fun hh => absurd hh hni

/-- C6 witness: distinct String handles with equal contents compare
unequal; the canonical True compares equal to itself; Integers compare by
value. -/
theorem C6_equality_semantics_witness :
    (executeComparison
        { constants := [], stack := [.strObj 3 "x", .strObj 4 "x", NullObj], sp := 2,
          globals := [], frames := [], framesIndex := 0, arrays := [], nextAddr := 0 }
        .OpEqual =
      .ok { constants := [], stack := [FalseObj, .strObj 4 "x", NullObj], sp := 1,
            globals := [], frames := [], framesIndex := 0, arrays := [], nextAddr := 0 }) ∧
    (executeComparison
        { constants := [], stack := [TrueObj, TrueObj, NullObj], sp := 2,
          globals := [], frames := [], framesIndex := 0, arrays := [], nextAddr := 0 }
        .OpEqual =
      .ok { constants := [], stack := [TrueObj, TrueObj, NullObj], sp := 1,
            globals := [], frames := [], framesIndex := 0, arrays := [], nextAddr := 0 }) ∧
    (executeComparison
        { constants := [], stack := [.intObj 3, .intObj 3, NullObj], sp := 2,
          globals := [], frames := [], framesIndex := 0, arrays := [], nextAddr := 0 }
        .OpEqual =
      .ok { constants := [], stack := [TrueObj, .intObj 3, NullObj], sp := 1,
            globals := [], frames := [], framesIndex := 0, arrays := [], nextAddr := 0 }) := by
  refine ⟨?_, ?_, ?_⟩
  · have h := (C6_equality_semantics
      { constants := [], stack := [.strObj 3 "x", .strObj 4 "x", NullObj], sp := 2,
        globals := [], frames := [], framesIndex := 0, arrays := [], nextAddr := 0 }
      0 (.strObj 3 "x") (.strObj 4 "x") (by decide) (by decide) (by decide)
      (by decide) (by decide)).2.2.1 3 4 "x" (by decide) rfl rfl
    exact h
  · have h := (C6_equality_semantics
      { constants := [], stack := [TrueObj, TrueObj, NullObj], sp := 2,
        globals := [], frames := [], framesIndex := 0, arrays := [], nextAddr := 0 }
      0 TrueObj TrueObj (by decide) (by decide) (by decide)
      (by decide) (by decide)).2.2.2 rfl (by decide)
    exact h
  · have h := ((C6_equality_semantics
      { constants := [], stack := [.intObj 3, .intObj 3, NullObj], sp := 2,
        globals := [], frames := [], framesIndex := 0, arrays := [], nextAddr := 0 }
      0 (.intObj 3) (.intObj 3) (by decide) (by decide) (by decide)
      (by decide) (by decide)).1 3 3 rfl rfl).1
    simpa using h

/-- C7 counterexample: on two String operands, OpSub produces the error
whose message is "unkown string operator: 2" — the source misspells
"unkown", so the message claimed by the spec, "unknown string operator"
with the opcode appended, is not what the code emits. -/
theorem C7_counterexample :
    executeBinaryOperation
      { constants := [], stack := [.strObj 0 "a", .strObj 1 "b", NullObj], sp := 2,
        globals := [], frames := [], framesIndex := 0, arrays := [], nextAddr := 10 }
      .OpSub = .err (.unknownStringOperator .OpSub) ∧
    renderError (.unknownStringOperator .OpSub) = "unkown string operator: 2" ∧
    renderError (.unknownStringOperator .OpSub) ≠
      "unknown string operator: " ++ Nat.repr (opcodeValue .OpSub) := by
  exact ⟨by decide, by decide, by decide⟩

/-- C7 (amended): a binary operation on two String operands whose opcode is
not OpAdd aborts Run with the error message "unkown string operator" (sic,
as the source spells it) with the offending opcode appended; OpAdd on two
Strings pushes their concatenation (a fresh String) and raises no error. -/
theorem C7_string_operators (vm : VMState) (k a1 a2 : Nat) (s1 s2 : String)
    (hs : vm.sp = k + 2)
    (hr : vm.stack[k + 1]? = some (.strObj a2 s2))
    (hl : vm.stack[k]? = some (.strObj a1 s1))
    (hp1 : k < StackSize)
    (hp2 : k < vm.stack.length) :
    (∀ op, (op = .OpSub ∨ op = .OpMul ∨ op = .OpDiv) →
      executeBinaryOperation vm op = .err (.unknownStringOperator op) ∧
      renderError (.unknownStringOperator op) =
        "unkown string operator: " ++ Nat.repr (opcodeValue op)) ∧
    executeBinaryOperation vm .OpAdd =
      .ok { vm with stack := vm.stack.set k (.strObj vm.nextAddr (s1 ++ s2)),
                    sp := k + 1, nextAddr := vm.nextAddr + 1 } := by
  have hpop1 : pop vm = some (.strObj a2 s2, { vm with sp := k + 1 }) :=
    pop_some vm (k + 1) _ hs hr
  have hpop2 : pop { vm with sp := k + 1 } = some (.strObj a1 s1, { vm with sp := k }) :=
    pop_some { vm with sp := k + 1 } k _ rfl hl
  have hpush : ¬ StackSize ≤ k := Nat.not_le.mpr hp1
  constructor
  · rintro op (rfl | rfl | rfl) <;>
      exact ⟨by simp [executeBinaryOperation, hpop1, hpop2, Obj.type, INTEGER_OBJ,
        STRING_OBJ, executeBinaryStringOperation], rfl⟩
  · simp [executeBinaryOperation, hpop1, hpop2, Obj.type, INTEGER_OBJ, STRING_OBJ,
      executeBinaryStringOperation, push, hpush, hp2]

/-- C7 witness: the amended behaviour at a concrete state — OpMul errors,
OpAdd concatenates "a" and "b" into a fresh String at address 10. -/
theorem C7_string_operators_witness :
    executeBinaryOperation
      { constants := [], stack := [.strObj 0 "a", .strObj 1 "b", NullObj], sp := 2,
        globals := [], frames := [], framesIndex := 0, arrays := [], nextAddr := 10 }
      .OpMul = .err (.unknownStringOperator .OpMul) ∧
    executeBinaryOperation
      { constants := [], stack := [.strObj 0 "a", .strObj 1 "b", NullObj], sp := 2,
        globals := [], frames := [], framesIndex := 0, arrays := [], nextAddr := 10 }
      .OpAdd =
      .ok { constants := [], stack := [.strObj 10 "ab", .strObj 1 "b", NullObj], sp := 1,
            globals := [], frames := [], framesIndex := 0, arrays := [], nextAddr := 11 } := by
  have h := C7_string_operators
    { constants := [], stack := [.strObj 0 "a", .strObj 1 "b", NullObj], sp := 2,
      globals := [], frames := [], framesIndex := 0, arrays := [], nextAddr := 10 }
    0 0 1 "a" "b" (by decide) (by decide) (by decide) (by decide) (by decide)
  exact ⟨(h.1 .OpMul (by simp)).1, h.2.trans (by decide)⟩

/-- C8 counterexample: the builtins first, last and rest applied to one
empty Array return the Go nil interface value (builtins.go lines 48, 69,
92), which is not the canonical Null object the claim promises — nor any
object at all. -/
theorem C8_counterexample :
    firstFn [.arr []] = .nilRes ∧
    lastFn [.arr []] = .nilRes ∧
    restFn [.arr []] = .nilRes ∧
    BRes.nilRes ≠ .val .null ∧
    (∀ o : BObj, BRes.nilRes ≠ .val o) := by
  refine ⟨rfl, rfl, rfl, ?_, ?_⟩
  · intro h
    exact BRes.noConfusion h
  · intro o h
    exact BRes.noConfusion h

/-- C8 (amended): first, last and rest on exactly one empty-Array argument
return the host language's nil (not an in-band Error value and not the
canonical Null); on a non-empty Array, first returns element 0, last
returns the last element, and rest returns a new Array excluding
element 0. -/
theorem C8_first_last_rest :
    (firstFn [.arr []] = .nilRes ∧ lastFn [.arr []] = .nilRes ∧
      restFn [.arr []] = .nilRes ∧ (∀ o : BObj, BRes.nilRes ≠ .val o)) ∧
    (∀ (e : BObj) (es : List BObj),
      firstFn [.arr (e :: es)] = .val e ∧
      lastFn [.arr (e :: es)] = .val ((e :: es).getLast (List.cons_ne_nil e es)) ∧
      restFn [.arr (e :: es)] = .val (.arr es)) := by
  refine ⟨⟨rfl, rfl, rfl, fun o h => BRes.noConfusion h⟩, ?_⟩
  intro e es
  have hlast : (e :: es)[(e :: es).length - 1]? =
      some ((e :: es).getLast (List.cons_ne_nil e es)) := by
    rw [← List.getLast?_eq_getElem?]
    exact List.getLast?_eq_getLast (e :: es) (List.cons_ne_nil e es)
  refine ⟨?_, ?_, ?_⟩
  · simp [firstFn, newError, BObj.type, ARRAY_OBJ]
  · simp [lastFn, newError, BObj.type, ARRAY_OBJ, hlast, List.getLast_eq_getElem]
  · simp [restFn, newError, BObj.type, ARRAY_OBJ]

/-- C9 counterexample: at start = −2^63 and end = 2^63 − 1 — both valid
int64 Integers with start ≤ end — Go's int64 subtraction end − start wraps
to −1 and `make([]Object, -1)` panics, so range returns no Array at all,
refuting the claim that every pair with start ≤ end yields an Array of
end − start elements. -/
theorem C9_counterexample :
    (-(2 ^ 63) : Int) ≤ 2 ^ 63 - 1 ∧
    wrap64 ((2 ^ 63 - 1) - (-(2 ^ 63) : Int)) = -1 ∧
    rangeFn [.int (-(2 ^ 63)), .int (2 ^ 63 - 1)] = .crashRes ∧
    (∀ elements : List BObj,
      rangeFn [.int (-(2 ^ 63)), .int (2 ^ 63 - 1)] ≠ .val (.arr elements)) := by
  have hcrash : rangeFn [.int (-(2 ^ 63)), .int (2 ^ 63 - 1)] = .crashRes := rfl
  refine ⟨by decide, by decide, hcrash, ?_⟩
  intro elements h
  rw [hcrash] at h
  exact BRes.noConfusion h

/-- C9 (amended): range on two int64 Integers start ≤ end whose int64
difference end − start does not overflow (end − start < 2^63) returns the
half-open interval [start, end) in increasing order with end − start
elements (empty when start = end); a wrong argument count or non-Integer
arguments yield an in-band Error value.  When the difference overflows
int64, Go's make panics instead — see the counterexample. -/
theorem C9_range :
    (∀ start stop : Int,
      -(2 ^ 63) ≤ start → start ≤ stop → stop < 2 ^ 63 → stop - start < 2 ^ 63 →
      ∃ elements : List BObj,
        rangeFn [.int start, .int stop] = .val (.arr elements) ∧
        (elements.length : Int) = stop - start ∧
        (∀ k : Nat, (k : Int) < stop - start → elements[k]? = some (.int (start + k))) ∧
        (start = stop → elements = [])) ∧
    (∀ args : List BObj, args.length ≠ 2 → ∃ m, rangeFn args = .val (.error m)) ∧
    (∀ a b : BObj, (a.type ≠ INTEGER_OBJ ∨ b.type ≠ INTEGER_OBJ) →
      rangeFn [a, b] = .val (.error "arg must be INTEGERS")) := by
  refine ⟨?_, ?_, ?_⟩
  · intro start stop hlo h hhi hfit
    have hw : wrap64 (stop - start) = stop - start := by unfold wrap64; omega
    have hneg : ¬ wrap64 (stop - start) < 0 := by rw [hw]; omega
    refine ⟨(List.range (wrap64 (stop - start)).toNat).map
      (fun (i : Nat) => BObj.int (wrap64 (start + (i : Int)))), ?_, ?_, ?_, ?_⟩
    · simp [rangeFn, BObj.type, hneg]
    · have hl : ((List.range (wrap64 (stop - start)).toNat).map
          (fun (i : Nat) => BObj.int (wrap64 (start + (i : Int))))).length =
          (wrap64 (stop - start)).toNat := by
        rw [List.length_map, List.length_range]
      rw [hl, hw]
      omega
    · intro k hk
      have hk' : k < (wrap64 (stop - start)).toNat := by rw [hw]; omega
      have hwk : wrap64 (start + (k : Int)) = start + (k : Int) := by
        unfold wrap64
        omega
      rw [List.getElem?_map, List.getElem?_range hk']
      simp [hwk]
    · intro hse
      have h0 : (wrap64 (stop - start)).toNat = 0 := by rw [hw]; omega
      rw [h0]
      rfl
  · intro args hlen
    refine ⟨"wrong number of arguments to `range`. got=" ++ Nat.repr args.length ++
      ", want=2", ?_⟩
    simp [rangeFn, hlen, newError]
  · intro a b hty
    simp [rangeFn, newError, hty]

/-- C9 witness: range(1, 4) is the three-element interval, range(5) is an
arity Error, range("a", 2) is a type Error. -/
theorem C9_range_witness :
    (∃ elements : List BObj,
      rangeFn [.int 1, .int 4] = .val (.arr elements) ∧
      (elements.length : Int) = 4 - 1) ∧
    (∃ m, rangeFn [.int 5] = .val (.error m)) ∧
    rangeFn [.str "a", .int 2] = .val (.error "arg must be INTEGERS") := by
  obtain ⟨el, h1, h2, h3, h4⟩ := C9_range.1 1 4 (by decide) (by decide) (by decide) (by decide)
  exact ⟨⟨el, h1, h2⟩, C9_range.2.1 [.int 5] (by decide),
    C9_range.2.2 (.str "a") (.int 2) (by left; decide)⟩

/-- Helper for C10: no VM error message reads "stack underflow". -/
theorem renderError_ne_stack_underflow (e : VMError) :
    renderError e ≠ "stack underflow" := by
  have hlen : ("stack underflow" : String).length = 15 := by decide
  cases e with
  | stackOverflow => decide
  | callingNonFunction => decide
  | wrongNumberOfArguments w g =>
    intro h
    have h2 := congrArg String.length h
    simp only [renderError, String.length_append, hlen] at h2
    have e1 : ("wrong number of arguments: want=" : String).length = 32 := by decide
    have e2 : (" got=" : String).length = 5 := by decide
    omega
  | unknownStringOperator op =>
    intro h
    have h2 := congrArg String.length h
    simp only [renderError, String.length_append, hlen] at h2
    have e1 : ("unkown string operator: " : String).length = 24 := by decide
    omega
  | unknownIntegerOperator op =>
    intro h
    have h2 := congrArg String.length h
    simp only [renderError, String.length_append, hlen] at h2
    have e1 : ("unknown integer operator: " : String).length = 26 := by decide
    omega
  | unknownOperatorCmpInt op =>
    intro h
    have h2 := congrArg String.length h
    simp only [renderError, String.length_append, hlen] at h2
    have e1 : ("unknown operator: " : String).length = 18 := by decide
    omega
  | unknownOperatorCmp op lt rt =>
    intro h
    have h2 := congrArg String.length h
    simp only [renderError, String.length_append, hlen] at h2
    have e1 : ("unknown operator: " : String).length = 18 := by decide
    have e2 : (" (" : String).length = 2 := by decide
    have e3 : (" " : String).length = 1 := by decide
    have e4 : (")" : String).length = 1 := by decide
    omega
  | unsupportedTypesForBinaryOperation lt rt =>
    intro h
    have h2 := congrArg String.length h
    simp only [renderError, String.length_append, hlen] at h2
    have e1 : ("unsupported types for binary operation: " : String).length = 40 := by decide
    have e3 : (" " : String).length = 1 := by decide
    omega

/-- C10: pop performs no underflow check — it returns stack[sp − 1] and
decrements sp whenever sp ≥ 1 keeps the access in bounds, its
out-of-bounds branch is reachable exactly when that precondition fails
(sp = 0 or sp beyond the backing store), and no error the VM can return
reads "stack underflow". -/
theorem C10_pop_totality :
    (∀ (vm : VMState) (spv : Nat), vm.sp = spv + 1 → spv < vm.stack.length →
      ∃ o, vm.stack[spv]? = some o ∧ pop vm = some (o, { vm with sp := spv })) ∧
    (∀ vm : VMState, pop vm = none ↔ (vm.sp = 0 ∨ vm.stack.length < vm.sp)) ∧
    (∀ e : VMError, renderError e ≠ "stack underflow") := by
  refine ⟨?_, ?_, renderError_ne_stack_underflow⟩
  · intro vm spv hs hlen
    cases ho : vm.stack[spv]? with
    | none => exact absurd (List.getElem?_eq_none_iff.mp ho) (by omega)
    | some o => exact ⟨o, rfl, pop_some vm spv o hs ho⟩
  · intro vm
    rcases hsp : vm.sp with _ | n
    · simp [pop, hsp]
    · simp only [pop, hsp]
      cases ho : vm.stack[n]? with
      | none =>
        have hle := List.getElem?_eq_none_iff.mp ho
        simp only [List.get?_eq_getElem?, ho]
        constructor
        · intro
          omega
        · intro
          trivial
      | some o =>
        have hlt : n < vm.stack.length := by
          by_contra hh
          rw [List.getElem?_eq_none_iff.mpr (by omega)] at ho
          cases ho
        simp only [List.get?_eq_getElem?, ho]
        constructor
        · intro hcontra
          cases hcontra
        · intro hor
          exact absurd hor (by omega)

/-- C10 witness: pop on a concrete two-element stack with sp = 2 returns
the top element and decrements sp; pop with sp = 0 hits the out-of-bounds
branch. -/
theorem C10_pop_totality_witness :
    (∃ o, ([.intObj 1, .intObj 2] : List Obj)[1]? = some o ∧
      pop { constants := [], stack := [.intObj 1, .intObj 2], sp := 2, globals := [],
            frames := [], framesIndex := 0, arrays := [], nextAddr := 0 } =
        some (o, { constants := [], stack := [.intObj 1, .intObj 2], sp := 1, globals := [],
                   frames := [], framesIndex := 0, arrays := [], nextAddr := 0 })) ∧
    pop { constants := [], stack := [.intObj 1, .intObj 2], sp := 0, globals := [],
          frames := [], framesIndex := 0, arrays := [], nextAddr := 0 } = none := by
  constructor
  · exact C10_pop_totality.1
      { constants := [], stack := [.intObj 1, .intObj 2], sp := 2, globals := [],
        frames := [], framesIndex := 0, arrays := [], nextAddr := 0 } 1 (by decide) (by decide)
  · exact (C10_pop_totality.2.1
      { constants := [], stack := [.intObj 1, .intObj 2], sp := 0, globals := [],
        frames := [], framesIndex := 0, arrays := [], nextAddr := 0 }).mpr (by decide)

end Monkey
